import Mathlib

/-!
Verification of the uprooted CoreCLR profiling plug-in
(`src/tools/uprooted_profiler.c` and `src/tools/uprooted_profiler_linux.c`).

The development shallowly embeds the metadata/IL machinery of the profiler:

* `CompressToken` — the coded-TypeDefOrRef compression used in the hand-built
  `LoadFrom` signature blob;
* `parseOrigBody` / `buildNewBody` / `DoInjectIL` — the IL rewriter: header
  parsing, prologue synthesis, padding, and the exception-handling trailer,
  producing the new method body as a byte list;
* `PrepareTargetModule` — the metadata surgeon, modelled as a pure function
  over an environment recording the outcome of each host metadata call;
* `Prof_JITCompilationStarted` — the JIT observer, modelled as a state
  transition on the profiler's global state;
* `profInitLinux` / `profInitWin` — the process-identity guard of
  `Prof_Initialize` on both hosts.

Host-side calls (metadata import/emit, the IL allocator, logging) are
represented by environment parameters; everything the plug-in itself computes
is embedded byte-for-byte.
-/

namespace Uprooted

/-! ### Byte-level helpers

The profiler stores multi-byte fields little-endian (`*(USHORT*)p = v`,
`*(unsigned int*)p = v` on a little-endian host).  `le16`/`le32` are the byte
images of such a store; `readLE16`/`readLE32` read them back from a byte list.
-/

def le16 (x : Nat) : List Nat := [x % 256, x / 256 % 256]

def le32 (x : Nat) : List Nat :=
  [x % 256, x / 256 % 256, x / 65536 % 256, x / 16777216 % 256]

def readLE16 (l : List Nat) (i : Nat) : Nat :=
  l.getD i 0 + 256 * l.getD (i + 1) 0

def readLE32 (l : List Nat) (i : Nat) : Nat :=
  l.getD i 0 + 256 * l.getD (i + 1) 0 + 65536 * l.getD (i + 2) 0 +
    16777216 * l.getD (i + 3) 0

/-! ### Bit-arithmetic lemmas used throughout -/

theorem and_mask255 (a : Nat) : a &&& 0xFF = a % 256 := by
  have h := Nat.and_pow_two_sub_one_eq_mod a 8
  norm_num at h
  exact h

theorem and_mask63 (a : Nat) : a &&& 0x3F = a % 64 := by
  have h := Nat.and_pow_two_sub_one_eq_mod a 6
  norm_num at h
  exact h

theorem and_mask31 (a : Nat) : a &&& 0x1F = a % 32 := by
  have h := Nat.and_pow_two_sub_one_eq_mod a 5
  norm_num at h
  exact h

theorem and_mask24bit (a : Nat) : a &&& 0xFFFFFF = a % 16777216 := by
  have h := Nat.and_pow_two_sub_one_eq_mod a 24
  norm_num at h
  exact h

theorem shr8_eq (a : Nat) : a >>> 8 = a / 256 := by
  rw [Nat.shiftRight_eq_div_pow]

theorem shr16_eq (a : Nat) : a >>> 16 = a / 65536 := by
  rw [Nat.shiftRight_eq_div_pow]

theorem shr24_eq (a : Nat) : a >>> 24 = a / 16777216 := by
  rw [Nat.shiftRight_eq_div_pow]

/-- `(a <<< k) ||| b = a * 2 ^ k + b` when `b` fits below the shift. -/
theorem shl_or_eq_add {b : Nat} (k : Nat) (hb : b < 2 ^ k) (a : Nat) :
    (a <<< k) ||| b = a * 2 ^ k + b := by
  rw [Nat.shiftLeft_eq, Nat.mul_comm, ← Nat.mul_add_lt_is_or hb, Nat.mul_comm]

/-! ### Token compression (`CompressToken`, profiler.c lines 282–308)

`CompressToken` packs a metadata token into the ECMA-335 compressed
coded-TypeDefOrRef form: tag 0 for TypeDef (table 0x02), tag 1 for TypeRef
(table 0x01), tag 2 otherwise; coded value `(rid << 2) | tag`; then the
1/2/4-byte compressed-integer encoding.
-/

def ctTag (token : Nat) : Nat :=
  if token >>> 24 = 0x02 then 0
  else if token >>> 24 = 0x01 then 1
  else 2

def ctCoded (token : Nat) : Nat :=
  ((token &&& 0xFFFFFF) <<< 2) ||| ctTag token

def CompressToken (token : Nat) : List Nat :=
  if ctCoded token < 0x80 then
    [ctCoded token]
  else if ctCoded token < 0x4000 then
    [0x80 ||| (ctCoded token >>> 8), ctCoded token &&& 0xFF]
  else
    [0xC0 ||| ((ctCoded token >>> 24) &&& 0x1F), (ctCoded token >>> 16) &&& 0xFF,
     (ctCoded token >>> 8) &&& 0xFF, ctCoded token &&& 0xFF]

/-- Decoder for the ECMA-335 compressed-integer format, written from the
format's rules (spec §4.4): one byte with high bit clear; two bytes with top
bits `10`; four bytes with top bits `110`. -/
def decodeCompressed : List Nat → Option Nat
  | [] => none
  | b0 :: rest =>
    if b0 < 0x80 then some b0
    else if b0 < 0xC0 then
      match rest with
      | b1 :: _ => some (((b0 &&& 0x3F) <<< 8) ||| b1)
      | [] => none
    else
      match rest with
      | b1 :: b2 :: b3 :: _ =>
        some (((b0 &&& 0x1F) <<< 24) ||| ((b1 <<< 16) ||| ((b2 <<< 8) ||| b3)))
      | _ => none

theorem ctTag_lt (token : Nat) : ctTag token < 4 := by
  unfold ctTag
  split
  · omega
  · split <;> omega

theorem ctCoded_eq (token : Nat) :
    ctCoded token = token % 16777216 * 4 + ctTag token := by
  have ht := ctTag_lt token
  unfold ctCoded
  rw [and_mask24bit, shl_or_eq_add 2 (by omega : ctTag token < 2 ^ 2)]
  norm_num

theorem ctCoded_lt (token : Nat) : ctCoded token < 2 ^ 26 := by
  rw [ctCoded_eq]
  have h1 : token % 16777216 < 16777216 := Nat.mod_lt _ (by omega)
  have h2 := ctTag_lt token
  norm_num
  omega

theorem decode_two (b0 b1 : Nat) (h1 : 0x80 ≤ b0) (h2 : b0 < 0xC0) :
    decodeCompressed [b0, b1] = some (((b0 &&& 0x3F) <<< 8) ||| b1) := by
  simp only [decodeCompressed]
  rw [if_neg (by omega), if_pos (by omega)]

theorem decode_four (b0 b1 b2 b3 : Nat) (h1 : 0xC0 ≤ b0) :
    decodeCompressed [b0, b1, b2, b3] =
      some (((b0 &&& 0x1F) <<< 24) ||| ((b1 <<< 16) ||| ((b2 <<< 8) ||| b3))) := by
  simp only [decodeCompressed]
  rw [if_neg (by omega), if_neg (by omega)]

theorem decode_compressedForm (c : Nat) (hlt : c < 2 ^ 26) :
    decodeCompressed
      (if c < 0x80 then [c]
       else if c < 0x4000 then [0x80 ||| (c >>> 8), c &&& 0xFF]
       else [0xC0 ||| ((c >>> 24) &&& 0x1F), (c >>> 16) &&& 0xFF,
             (c >>> 8) &&& 0xFF, c &&& 0xFF]) = some c := by
  have h256 : (2 : Nat) ^ 8 = 256 := by norm_num
  by_cases h1 : c < 0x80
  · rw [if_pos h1]
    simp only [decodeCompressed]
    rw [if_pos h1]
  · by_cases h2 : c < 0x4000
    · rw [if_neg h1, if_pos h2]
      have hb0 : (0x80 ||| (c >>> 8)) = 128 + c / 256 := by
        rw [shr8_eq]
        have h := Nat.mul_add_lt_is_or (i := 7) (b := c / 256)
          (by omega : c / 256 < 2 ^ 7) 1
        norm_num at h
        omega
      rw [hb0, and_mask255, decode_two _ _ (by omega) (by omega)]
      have hm : (128 + c / 256) &&& 0x3F = c / 256 := by
        rw [and_mask63]; omega
      rw [hm, shl_or_eq_add 8 (by omega : c % 256 < 2 ^ 8), h256]
      have : c / 256 * 256 + c % 256 = c := by omega
      rw [this]
    · rw [if_neg h1, if_neg h2]
      have hb0 : (0xC0 ||| ((c >>> 24) &&& 0x1F)) = 192 + c / 16777216 := by
        rw [shr24_eq, and_mask31, Nat.mod_eq_of_lt (by omega)]
        have h := Nat.mul_add_lt_is_or (i := 6) (b := c / 16777216)
          (by omega : c / 16777216 < 2 ^ 6) 3
        norm_num at h
        omega
      rw [hb0, shr16_eq, shr8_eq, and_mask255, and_mask255, and_mask255,
        decode_four _ _ _ _ (by omega)]
      have hm : (192 + c / 16777216) &&& 0x1F = c / 16777216 := by
        rw [and_mask31]; omega
      rw [hm, shl_or_eq_add 8 (by omega : c % 256 < 2 ^ 8)]
      have h16 : (2 : Nat) ^ 16 = 65536 := by norm_num
      have h24 : (2 : Nat) ^ 24 = 16777216 := by norm_num
      rw [shl_or_eq_add 16 (by rw [h256]; omega : c / 256 % 256 * 2 ^ 8 +
        c % 256 < 2 ^ 16)]
      rw [shl_or_eq_add 24 (by rw [h256, h16]; omega : c / 65536 % 256 * 2 ^ 16 +
        (c / 256 % 256 * 2 ^ 8 + c % 256) < 2 ^ 24)]
      rw [h256, h16, h24]
      have : c / 16777216 * 16777216 + (c / 65536 % 256 * 65536 +
          (c / 256 % 256 * 256 + c % 256)) = c := by omega
      rw [this]

/-- Decoding the emitted 1/2/4-byte form recovers the coded value. -/
theorem decode_CompressToken (token : Nat) :
    decodeCompressed (CompressToken token) = some (ctCoded token) := by
  unfold CompressToken
  exact decode_compressedForm (ctCoded token) (ctCoded_lt token)

/-- The hand-assembled `Assembly.LoadFrom(string)` signature blob
(profiler.c lines 483–489): calling convention, parameter count, class
element, compressed Assembly token, string element. -/
def loadFromSig (tokAssemblyTR : Nat) : List Nat :=
  [0x00, 0x01, 0x12] ++ (CompressToken tokAssemblyTR ++ [0x0E])

/-! ### IL method-header constants (profiler.c lines 147–155) -/

def CorILMethod_TinyFormat : Nat := 0x02
def CorILMethod_FatFormat : Nat := 0x03
def CorILMethod_MoreSects : Nat := 0x08
def CorILMethod_InitLocals : Nat := 0x10
def CorILMethod_Sect_EHTable : Nat := 0x01
def CorILMethod_Sect_FatFormat : Nat := 0x40

def IL_LDSTR : Nat := 0x72
def IL_CALL : Nat := 0x28
def IL_CALLVIRT : Nat := 0x6F
def IL_POP : Nat := 0x26
def IL_LEAVE_S : Nat := 0xDE

def INJECT_SIZE : Nat := 26

/-- The five prepared tokens the rewriter embeds in the prologue and the
exception clause (the globals `g_tokPathString`, `g_tokLoadFromMR`,
`g_tokTypeString`, `g_tokCreateInstMR`, `g_tokExceptionTR`). -/
structure ILTokens where
  usPath : Nat
  mrLoadFrom : Nat
  usType : Nat
  mrCreateInst : Nat
  trException : Nat
deriving DecidableEq, Repr

/-! ### IL rewriter (`DoInjectIL`, profiler.c lines 658–883)

The original body arrives as a byte list; the rewriter parses the tiny or
fat header, rejects bodies with extra sections, and builds the new fat body.
-/

/-- Parsed original method header, as extracted by `DoInjectIL` step 2. -/
structure OrigHeader where
  isTiny : Bool
  flags : Nat
  maxStack : Nat
  codeSize : Nat
  localsSig : Nat
  code : List Nat
deriving DecidableEq, Repr

/-- Step 2 of `DoInjectIL`: parse the original header.  A tiny header
(low two bits `0b10`) carries `codeSize = byte >> 2`, implicit maxStack 8 and
no locals; otherwise the 12-byte fat header is read little-endian.  The empty
body is rejected (the C code returns FALSE when `origSize == 0`). -/
def parseOrigBody (body : List Nat) : Option OrigHeader :=
  match body with
  | [] => none
  | b0 :: rest =>
    if b0 &&& 0x03 = CorILMethod_TinyFormat then
      some { isTiny := true, flags := 0, maxStack := 8, codeSize := b0 >>> 2,
             localsSig := 0, code := rest.take (b0 >>> 2) }
    else
      some { isTiny := false, flags := readLE16 body 0,
             maxStack := readLE16 body 2, codeSize := readLE32 body 4,
             localsSig := readLE32 body 8,
             code := (body.drop 12).take (readLE32 body 4) }

/-- Step 3 of `DoInjectIL`: the 26-byte injected prologue.
`ldstr us_path; call mr_load_from; ldstr us_type; callvirt mr_create_instance;
pop; leave.s +3; pop; leave.s +0` with 4-byte little-endian token operands. -/
def injectionIL (tk : ILTokens) : List Nat :=
  IL_LDSTR :: (le32 tk.usPath ++ (IL_CALL :: (le32 tk.mrLoadFrom ++
    (IL_LDSTR :: (le32 tk.usType ++ (IL_CALLVIRT :: (le32 tk.mrCreateInst ++
      [IL_POP, IL_LEAVE_S, 3, IL_POP, IL_LEAVE_S, 0])))))))

/-- Step 9 of `DoInjectIL`: the 28-byte exception-handling trailer — a 4-byte
section header (kind `0x41`, 24-bit little-endian length 28) followed by one
fat clause: flags 0, tryOffset 0, tryLength 23, handlerOffset 23,
handlerLength 3, classToken `g_tokExceptionTR`. -/
def ehSectionBytes (classToken : Nat) : List Nat :=
  (CorILMethod_Sect_EHTable ||| CorILMethod_Sect_FatFormat) ::
    ((28 &&& 0xFF) :: ((28 >>> 8 &&& 0xFF) :: ((28 >>> 16 &&& 0xFF) ::
      (le32 0 ++ (le32 0 ++ (le32 23 ++ (le32 23 ++ (le32 3 ++
        le32 classToken))))))))

/-- Steps 4–9 of `DoInjectIL`: sizes, zero-filled buffer, fat header,
prologue, original code, alignment padding and exception trailer.  All
`ULONG` arithmetic is taken modulo `2^32`. -/
def buildNewBody (tk : ILTokens) (h : OrigHeader) : List Nat :=
  let newCodeSize := (INJECT_SIZE + h.codeSize) % 4294967296
  let newMaxStack := if h.maxStack < 2 then 2 else h.maxStack
  let fatFlags0 := (3 <<< 12) ||| CorILMethod_FatFormat ||| CorILMethod_MoreSects
  let fatFlags := if h.isTiny = false ∧ h.flags &&& CorILMethod_InitLocals ≠ 0 then
    fatFlags0 ||| CorILMethod_InitLocals else fatFlags0
  let codeEnd := 12 + newCodeSize
  let ehPadding := (4 - codeEnd % 4) % 4
  (le16 fatFlags ++ (le16 newMaxStack ++ (le32 newCodeSize ++ (le32 h.localsSig ++
    (injectionIL tk ++ (h.code ++
      List.replicate (codeEnd + ehPadding - (38 + h.code.length)) 0)))))) ++
    ehSectionBytes tk.trException

/-- `DoInjectIL` as a pure function from the original body bytes to the new
body bytes; `none` models a FALSE return (empty body, or a fat header with
the MoreSects bit, both rejected before the allocator is consulted). -/
def DoInjectIL (tk : ILTokens) (origBody : List Nat) : Option (List Nat) :=
  match parseOrigBody origBody with
  | none => none
  | some h =>
    if h.flags &&& CorILMethod_MoreSects ≠ 0 then none
    else some (buildNewBody tk h)

/-! ### Metadata surgeon (`PrepareTargetModule`, profiler.c lines 416–642)

Host metadata calls are represented by a `PrepEnv` recording each call's
outcome; the function itself — the sequencing, the global token writes, the
rollback on failure and the release of both handles — is embedded directly.
-/

/-- Outcome of one host emit call: HRESULT and the out-parameter token. -/
structure HostCall where
  hr : Nat
  tok : Nat
deriving DecidableEq, Repr

/-- Properties of one enumerated method, in enumeration order
(`GetMethodProps` out-parameters plus the method's IL body). -/
structure MethodProps where
  mTok : Nat
  codeRVA : Nat
  attrs : Nat
  implFlags : Nat
  body : List Nat
deriving DecidableEq, Repr

/-- Environment of host-call outcomes for one `PrepareTargetModule` run.
A `*Found` field of 0 means the corresponding `SearchTypeRef` enumeration
found nothing. -/
structure PrepEnv where
  importOk : Bool
  objectTR : Nat
  runtimeScope : Nat
  emitOk : Bool
  assemblyTRFound : Nat
  defAssemblyTR : HostCall
  defLoadFrom : HostCall
  defCreateInst : HostCall
  exceptionTRFound : Nat
  defExceptionTR : HostCall
  defPathString : HostCall
  defTypeString : HostCall
  methods : List MethodProps
deriving DecidableEq, Repr

/-- The profiler's token-related globals: the five prepared tokens
(`g_tokLoadFromMR`, `g_tokCreateInstMR`, `g_tokExceptionTR`,
`g_tokPathString`, `g_tokTypeString`), `g_targetModuleId`, `g_targetReady`
and `g_injectionCount`. -/
structure TokState where
  loadFromMR : Nat
  createInstMR : Nat
  exceptionTR : Nat
  pathString : Nat
  typeString : Nat
  targetModuleId : Nat
  targetReady : Bool
  injected : Bool
deriving DecidableEq, Repr

/-- Result of a `PrepareTargetModule` run: the BOOL return, the global state
afterwards, and whether each metadata handle was released (true also when
the handle was never acquired on that path — nothing is leaked). -/
structure PrepOutcome where
  ok : Bool
  st : TokState
  importReleased : Bool
  emitReleased : Bool
deriving DecidableEq, Repr

/-- The prepared token set as consumed by the rewriter. -/
def tokensOf (st : TokState) : ILTokens :=
  { usPath := st.pathString, mrLoadFrom := st.loadFromMR,
    usType := st.typeString, mrCreateInst := st.createInstMR,
    trException := st.exceptionTR }

/-- The `fail:` label of `PrepareTargetModule` (lines 632–641): zero the five
token globals, release both metadata handles, return FALSE. -/
def prepFail (st : TokState) : PrepOutcome :=
  { ok := false
    st := { st with
            loadFromMR := 0
            createInstMR := 0
            exceptionTR := 0
            pathString := 0
            typeString := 0 }
    importReleased := true
    emitReleased := true }

/-- Step 7 of `PrepareTargetModule`: enumerate methods in order, pick those
with a body (`codeRVA ≠ 0`), not abstract (`attrs & 0x0400 = 0`) and not a
foreign-function stub (`implFlags & 0x0004 = 0`); set `g_targetReady` before
each attempt; on the first successful `DoInjectIL` set `g_injectionCount`. -/
def injectFirstMethod (tk : ILTokens) : List MethodProps → TokState → TokState
  | [], st => st
  | m :: rest, st =>
    if m.codeRVA ≠ 0 ∧ m.attrs &&& 0x0400 = 0 ∧ m.implFlags &&& 0x0004 = 0 then
      let st1 := { st with targetReady := true }
      match DoInjectIL tk m.body with
      | some _ => { st1 with injected := true }
      | none => injectFirstMethod tk rest st1
    else injectFirstMethod tk rest st

/-- All token-creation steps (2–6) returned S_OK, counting a step satisfied
when its `SearchTypeRef` found an existing token. -/
def prepStepsOk (env : PrepEnv) : Prop :=
  (env.assemblyTRFound ≠ 0 ∨ env.defAssemblyTR.hr = 0) ∧
  env.defLoadFrom.hr = 0 ∧ env.defCreateInst.hr = 0 ∧
  (env.exceptionTRFound ≠ 0 ∨ env.defExceptionTR.hr = 0) ∧
  env.defPathString.hr = 0 ∧ env.defTypeString.hr = 0

instance (env : PrepEnv) : Decidable (prepStepsOk env) := by
  unfold prepStepsOk
  infer_instance

/-- `PrepareTargetModule` as a pure function.  Out-parameters of emit calls
are written to the globals before the HRESULT check, as in the source; any
non-zero HRESULT in steps 2–6 jumps to `prepFail`. -/
def PrepareTargetModule (env : PrepEnv) (moduleId : Nat) (st0 : TokState) :
    PrepOutcome :=
  if env.importOk = false then
    { ok := false, st := st0, importReleased := true, emitReleased := true }
  else if env.objectTR = 0 then
    { ok := false, st := st0, importReleased := true, emitReleased := true }
  else if env.emitOk = false then
    { ok := false, st := st0, importReleased := true, emitReleased := true }
  else
    let assemblyHr := if env.assemblyTRFound ≠ 0 then 0 else env.defAssemblyTR.hr
    if assemblyHr ≠ 0 then prepFail st0
    else
      let st3 := { st0 with loadFromMR := env.defLoadFrom.tok }
      if env.defLoadFrom.hr ≠ 0 then prepFail st3
      else
        let st4 := { st3 with createInstMR := env.defCreateInst.tok }
        if env.defCreateInst.hr ≠ 0 then prepFail st4
        else
          let st5 := if env.exceptionTRFound ≠ 0 then
              { st4 with exceptionTR := env.exceptionTRFound }
            else { st4 with exceptionTR := env.defExceptionTR.tok }
          if env.exceptionTRFound = 0 ∧ env.defExceptionTR.hr ≠ 0 then prepFail st5
          else
            let st6a := { st5 with pathString := env.defPathString.tok }
            if env.defPathString.hr ≠ 0 then prepFail st6a
            else
              let st6b := { st6a with typeString := env.defTypeString.tok }
              if env.defTypeString.hr ≠ 0 then prepFail st6b
              else
                let st7 := { st6b with targetModuleId := moduleId }
                let st8 := injectFirstMethod (tokensOf st7) env.methods st7
                { ok := true, st := { st8 with targetReady := true },
                  importReleased := true, emitReleased := true }

/-! ### JIT observer (`Prof_JITCompilationStarted`, profiler.c lines 991–1041)

The callback is modelled as a transition on the profiler's global state.
`bodyOf` maps `(moduleId, methodToken)` to the IL body returned by
`GetILFunctionBody`; `resolveOk` is the HRESULT of `GetFunctionInfo`.
-/

/-- Profiler globals read or written on the JIT path. -/
structure ProfState where
  infoSet : Bool
  jitCount : Nat
  corelibModuleId : Nat
  targetModuleId : Nat
  targetReady : Bool
  injected : Bool
  toks : ILTokens
deriving DecidableEq, Repr

/-- How one `Prof_JITCompilationStarted` invocation exited. -/
inductive JitOutcome
  | noInfo
  | noCorelib
  | resolveFailed
  | alreadyInjected
  | notReady
  | wrongModule
  | attempted (ok : Bool)
deriving DecidableEq, Repr

/-- `Prof_JITCompilationStarted` as a transition.  Guards in source order:
null profiler-info, `g_corelibModuleId == 0` (before `GetFunctionInfo`),
resolution failure, already-injected fast path, `g_targetReady`, module
filter; then the CAS-claim of `g_injectionCount`, the rewrite, and the
flag reset on rewrite failure. -/
def Prof_JITCompilationStarted (bodyOf : Nat → Nat → List Nat)
    (resolveOk : Bool) (st : ProfState) (fnModule fnToken : Nat) :
    ProfState × JitOutcome :=
  if st.infoSet = false then (st, .noInfo)
  else
    let st1 := { st with jitCount := st.jitCount + 1 }
    if st1.corelibModuleId = 0 then (st1, .noCorelib)
    else if resolveOk = false then (st1, .resolveFailed)
    else if st1.injected then (st1, .alreadyInjected)
    else if st1.targetReady = false then (st1, .notReady)
    else if fnModule ≠ st1.targetModuleId then (st1, .wrongModule)
    else
      let claimed := { st1 with injected := true }
      match DoInjectIL st1.toks (bodyOf st1.targetModuleId fnToken) with
      | some _ => (claimed, .attempted true)
      | none => ({ claimed with injected := false }, .attempted false)

/-! ### Process-identity guard (`Prof_Initialize`)

Strings are byte lists (UTF-8 / ASCII); the guard only compares ASCII.
-/

/-- ASCII lower-casing, as `strcasecmp`/`strcasestr` compare. -/
def lowerByte (c : Nat) : Nat := if 65 ≤ c ∧ c ≤ 90 then c + 32 else c

def lowerStr (s : List Nat) : List Nat := s.map lowerByte

/-- "Root" -/
def strRoot : List Nat := [82, 111, 111, 116]

/-- "root" -/
def strRootLower : List Nat := [114, 111, 111, 116]

/-- "Root.exe" -/
def strRootExe : List Nat := [82, 111, 111, 116, 46, 101, 120, 101]

/-- Basename: the suffix after the last separator (`strrchr`/`wcsrchr`). -/
def basenameOf (sep : Nat) (path : List Nat) : List Nat :=
  path.foldl (fun acc c => if c = sep then [] else acc ++ [c]) []

/-- The Linux process guard (uprooted_profiler_linux.c lines 1001–1044):
exact "Root", case-insensitive "root", an `APPIMAGE` value whose basename
contains "root" case-insensitively, or a basename starting with "Root". -/
def linuxGuardAccepts (exeName : List Nat) (appimage : Option (List Nat)) :
    Bool :=
  if exeName = strRoot ∨ lowerStr exeName = strRootLower then true
  else
    let viaAppImage :=
      match appimage with
      | some ap => decide (strRootLower <:+: lowerStr (basenameOf 47 ap))
      | none => false
    viaAppImage || List.isPrefixOf strRoot exeName

/-- The Windows process guard (uprooted_profiler.c lines 891–905):
case-insensitive comparison of the basename with "Root.exe". -/
def winGuardAccepts (exeName : List Nat) : Bool :=
  lowerStr exeName = lowerStr strRootExe

inductive SessionPhase
  | idle
  | initialized
deriving DecidableEq, Repr

/-- Observable result of `Prof_Initialize`: the HRESULT, whether the
host-info capability was acquired, the event mask passed to `SetEventMask`
(if any), and the session phase afterwards. -/
structure InitResult where
  hres : Nat
  infoAcquired : Bool
  eventMask : Option Nat
  phase : SessionPhase
deriving DecidableEq, Repr

def COR_PRF_MONITOR_MODULE_LOADS : Nat := 0x00000004
def COR_PRF_MONITOR_JIT_COMPILATION : Nat := 0x00000020

/-- The event mask set on success: module loads, JIT notifications, and
`COR_PRF_DISABLE_ALL_NGEN_IMAGES`. -/
def eventMaskValue : Nat :=
  COR_PRF_MONITOR_JIT_COMPILATION ||| COR_PRF_MONITOR_MODULE_LOADS ||| 0x00080000

/-- `Prof_Initialize` on the Linux host.  `infoOk` is the outcome of the
`QueryInterface` for `ICorProfilerInfo`. -/
def profInitLinux (exePath : List Nat) (appimage : Option (List Nat))
    (infoOk : Bool) : InitResult :=
  let exeName := basenameOf 47 exePath
  if linuxGuardAccepts exeName appimage = false then
    { hres := 0x80004005, infoAcquired := false, eventMask := none,
      phase := .idle }
  else if infoOk = false then
    { hres := 0x80004005, infoAcquired := false, eventMask := none,
      phase := .idle }
  else
    { hres := 0, infoAcquired := true, eventMask := some eventMaskValue,
      phase := .initialized }

/-- `Prof_Initialize` on the Windows host. -/
def profInitWin (exePath : List Nat) (infoOk : Bool) : InitResult :=
  let exeName := basenameOf 92 exePath
  if winGuardAccepts exeName = false then
    { hres := 0x80004005, infoAcquired := false, eventMask := none,
      phase := .idle }
  else if infoOk = false then
    { hres := 0x80004005, infoAcquired := false, eventMask := none,
      phase := .idle }
  else
    { hres := 0, infoAcquired := true, eventMask := some eventMaskValue,
      phase := .initialized }

/-! ### Generic read lemmas for the new body layout -/

theorem readLE16_le16_head (x : Nat) (r : List Nat) (hx : x < 65536) :
    readLE16 (le16 x ++ r) 0 = x := by
  show x % 256 + 256 * (x / 256 % 256) = x
  omega

theorem readLE16_le16_second (x y : Nat) (r : List Nat) (hy : y < 65536) :
    readLE16 (le16 x ++ (le16 y ++ r)) 2 = y := by
  show y % 256 + 256 * (y / 256 % 256) = y
  omega

theorem readLE32_hdr4 (x y z : Nat) (r : List Nat) (hz : z < 4294967296) :
    readLE32 (le16 x ++ (le16 y ++ (le32 z ++ r))) 4 = z := by
  show z % 256 + 256 * (z / 256 % 256) + 65536 * (z / 65536 % 256) +
    16777216 * (z / 16777216 % 256) = z
  omega

theorem readLE32_hdr8 (x y z w : Nat) (r : List Nat) (hw : w < 4294967296) :
    readLE32 (le16 x ++ (le16 y ++ (le32 z ++ (le32 w ++ r)))) 8 = w := by
  show w % 256 + 256 * (w / 256 % 256) + 65536 * (w / 65536 % 256) +
    16777216 * (w / 16777216 % 256) = w
  omega

/-! ### Claims -/

/-- Claim C2: token compression round-trips.  For every token, decoding the
emitted 1/2/4-byte form per the compressed-integer rules recovers the coded
value `(row << 2) | tag` with tag 0 for table 0x02, 1 for table 0x01 and 2
otherwise; and the three edge-case encodings are `[0x7D]`, `[0x80, 0x81]`
and `[0xC0, 0x00, 0x40, 0x02]`. -/
theorem C2_compress_roundtrip (token : Nat) :
    decodeCompressed (CompressToken token) =
      some (((token &&& 0xFFFFFF) <<< 2) ||| ctTag token) ∧
    CompressToken 0x0100001F = [0x7D] ∧
    CompressToken 0x01000020 = [0x80, 0x81] ∧
    CompressToken 0x1B001000 = [0xC0, 0x00, 0x40, 0x02] :=
  ⟨decode_CompressToken token, by decide, by decide, by decide⟩

/-- Claim C9: `CompressToken` writes exactly 1, 2 or 4 bytes for any token,
so the hand-assembled `LoadFrom` signature blob is 5 to 8 bytes and never
overruns its 16-byte stack buffer. -/
theorem C9_compress_length (token : Nat) :
    ((CompressToken token).length = 1 ∨ (CompressToken token).length = 2 ∨
      (CompressToken token).length = 4) ∧
    5 ≤ (loadFromSig token).length ∧ (loadFromSig token).length ≤ 8 ∧
    (loadFromSig token).length ≤ 16 := by
  unfold loadFromSig CompressToken
  split
  · simp
  · split <;> simp

/-- Claim C1 as stated is false on the code: for the original body
`[0x06, 0x02, 0x2A]` the tiny header byte `0x06` declares codeSize
`0x06 >> 2 = 1`, so the rewriter emits header flags 0x300B (not 0x3018), a
codeSize field of 27 (not 29), and copies a single original code byte, the
byte at offset 39 being padding rather than `0x2A`. -/
theorem C1_counterexample :
    (DoInjectIL ⟨0x70000001, 0x0A000001, 0x70000002, 0x0A000002, 0x01000003⟩
        [0x06, 0x02, 0x2A]).isSome = true ∧
    readLE16 ((DoInjectIL ⟨0x70000001, 0x0A000001, 0x70000002, 0x0A000002,
        0x01000003⟩ [0x06, 0x02, 0x2A]).getD []) 0 ≠ 0x3018 ∧
    readLE32 ((DoInjectIL ⟨0x70000001, 0x0A000001, 0x70000002, 0x0A000002,
        0x01000003⟩ [0x06, 0x02, 0x2A]).getD []) 4 ≠ 29 ∧
    ((DoInjectIL ⟨0x70000001, 0x0A000001, 0x70000002, 0x0A000002, 0x01000003⟩
        [0x06, 0x02, 0x2A]).getD []).getD 39 0 ≠ 0x2A := by
  decide

/-- Claim C1, amended to what `DoInjectIL` actually produces on
`[0x06, 0x02, 0x2A]`: a 68-byte body — 12-byte fat header with flags 0x300B,
maxStack 8, codeSize 27 and localsSig 0, the 26-byte prologue, the single
original code byte `0x02`, one zero pad byte, the section header
`[0x41, 0x1C, 0x00, 0x00]` and the 24-byte fat clause whose class token is
the prepared exception type reference. -/
theorem C1_tiny_body_rewrite (tk : ILTokens) :
    DoInjectIL tk [0x06, 0x02, 0x2A] =
      some (le16 0x300B ++ (le16 8 ++ (le32 27 ++ (le32 0 ++
        (injectionIL tk ++ ([0x02] ++ (List.replicate 1 0 ++
          ehSectionBytes tk.trException))))))) ∧
    ((DoInjectIL tk [0x06, 0x02, 0x2A]).getD []).length = 68 :=
  ⟨rfl, rfl⟩

/-- Claim C5: a fat original whose MoreSects bit (0x08) is set is rejected —
`DoInjectIL` returns `none` at the header-guard stage, before the allocator
or `SetILFunctionBody` would be touched, and a JIT invocation on such a body
leaves the injection flag and the target module unchanged. -/
theorem C5_moresects_abort (tk : ILTokens) (b0 : Nat) (rest : List Nat)
    (hfat : ¬ b0 &&& 0x03 = CorILMethod_TinyFormat)
    (hms : readLE16 (b0 :: rest) 0 &&& CorILMethod_MoreSects ≠ 0) :
    DoInjectIL tk (b0 :: rest) = none ∧
    (∀ (bodyOf : Nat → Nat → List Nat) (resolveOk : Bool) (st : ProfState)
        (fnModule fnToken : Nat),
      st.toks = tk → bodyOf st.targetModuleId fnToken = b0 :: rest →
      ((Prof_JITCompilationStarted bodyOf resolveOk st fnModule fnToken).1).injected
          = st.injected ∧
      ((Prof_JITCompilationStarted bodyOf resolveOk st fnModule fnToken).1).targetModuleId
          = st.targetModuleId) := by
  have hp : parseOrigBody (b0 :: rest) =
      some { isTiny := false, flags := readLE16 (b0 :: rest) 0,
             maxStack := readLE16 (b0 :: rest) 2,
             codeSize := readLE32 (b0 :: rest) 4,
             localsSig := readLE32 (b0 :: rest) 8,
             code := ((b0 :: rest).drop 12).take (readLE32 (b0 :: rest) 4) } := by
    simp only [parseOrigBody]
    rw [if_neg hfat]
  have hnone : DoInjectIL tk (b0 :: rest) = none := by
    unfold DoInjectIL
    rw [hp]
    exact if_pos hms
  refine ⟨hnone, ?_⟩
  intro bodyOf resolveOk st fnModule fnToken htk hbody
  simp only [Prof_JITCompilationStarted]
  split_ifs with h1 h2 h3 h4 h5 h6
  · exact ⟨rfl, rfl⟩
  · exact ⟨rfl, rfl⟩
  · exact ⟨rfl, rfl⟩
  · exact ⟨rfl, rfl⟩
  · exact ⟨rfl, rfl⟩
  · exact ⟨rfl, rfl⟩
  · rw [htk, hbody, hnone]
    simp only [Bool.not_eq_true] at h4
    exact ⟨h4.symm, rfl⟩

/-- Witness for C5 at the spec's scenario 3: fat flags 0x001B
(Fat + InitLocals + MoreSects) are rejected. -/
theorem C5_moresects_abort_witness :
    (¬ (0x1B : Nat) &&& 0x03 = CorILMethod_TinyFormat) ∧
    readLE16 (0x1B :: [0x00, 0x04, 0x00, 0x0A, 0, 0, 0, 0, 0, 0, 0]) 0 &&&
      CorILMethod_MoreSects ≠ 0 ∧
    DoInjectIL ⟨1, 2, 3, 4, 5⟩
      (0x1B :: [0x00, 0x04, 0x00, 0x0A, 0, 0, 0, 0, 0, 0, 0]) = none :=
  ⟨by decide, by decide,
    (C5_moresects_abort ⟨1, 2, 3, 4, 5⟩ 0x1B
      [0x00, 0x04, 0x00, 0x0A, 0, 0, 0, 0, 0, 0, 0]
      (by decide) (by decide)).1⟩

/-- Claim C7: Initialize in a process that fails the identity guard returns
0x80004005 and does nothing else — the host-info capability is not acquired,
no event mask is set, and the session stays Idle — on both hosts. -/
theorem C7_identity_guard (exePath : List Nat) (appimage : Option (List Nat))
    (infoOk : Bool) (exePathW : List Nat) (infoOkW : Bool)
    (hL : linuxGuardAccepts (basenameOf 47 exePath) appimage = false)
    (hW : winGuardAccepts (basenameOf 92 exePathW) = false) :
    profInitLinux exePath appimage infoOk =
      { hres := 0x80004005, infoAcquired := false, eventMask := none,
        phase := .idle } ∧
    profInitWin exePathW infoOkW =
      { hres := 0x80004005, infoAcquired := false, eventMask := none,
        phase := .idle } := by
  constructor
  · simp only [profInitLinux, hL]
    rfl
  · simp only [profInitWin, hW]
    rfl

/-- Witness for C7: `/usr/bin/bash` fails the Linux guard with no APPIMAGE
set; `C:\x.exe` fails the Windows guard. -/
theorem C7_identity_guard_witness :
    linuxGuardAccepts
      (basenameOf 47 [47, 117, 115, 114, 47, 98, 105, 110, 47, 98, 97, 115, 104])
      none = false ∧
    winGuardAccepts (basenameOf 92 [67, 58, 92, 120, 46, 101, 120, 101]) = false ∧
    profInitLinux [47, 117, 115, 114, 47, 98, 105, 110, 47, 98, 97, 115, 104]
      none true =
      { hres := 0x80004005, infoAcquired := false, eventMask := none,
        phase := .idle } ∧
    profInitWin [67, 58, 92, 120, 46, 101, 120, 101] true =
      { hres := 0x80004005, infoAcquired := false, eventMask := none,
        phase := .idle } := by
  refine ⟨by decide, by decide, ?_, ?_⟩
  · exact (C7_identity_guard
      [47, 117, 115, 114, 47, 98, 105, 110, 47, 98, 97, 115, 104] none true
      [67, 58, 92, 120, 46, 101, 120, 101] true (by decide) (by decide)).1
  · exact (C7_identity_guard
      [47, 117, 115, 114, 47, 98, 105, 110, 47, 98, 97, 115, 104] none true
      [67, 58, 92, 120, 46, 101, 120, 101] true (by decide) (by decide)).2

/-- Claim C8: the JIT observer invokes the rewriter only when no injection
has succeeded, the target is armed and the module matches — whenever a
rewrite is attempted the one-shot flag was unclaimed, and afterwards the
flag is set exactly when the rewrite succeeded (reset to unclaimed on
failure). -/
theorem C8_jit_one_shot (bodyOf : Nat → Nat → List Nat) (resolveOk : Bool)
    (st : ProfState) (fnModule fnToken : Nat) (b : Bool)
    (hatt : (Prof_JITCompilationStarted bodyOf resolveOk st fnModule fnToken).2
      = .attempted b) :
    st.injected = false ∧ st.targetReady = true ∧
    fnModule = st.targetModuleId ∧
    b = (DoInjectIL st.toks (bodyOf st.targetModuleId fnToken)).isSome ∧
    ((Prof_JITCompilationStarted bodyOf resolveOk st fnModule fnToken).1).injected
      = b := by
  simp only [Prof_JITCompilationStarted] at hatt ⊢
  split_ifs at hatt ⊢ with h1 h2 h3 h4 h5 h6
  rcases hdo : DoInjectIL st.toks (bodyOf st.targetModuleId fnToken) with _ | nb <;>
    simp_all

/-- Witness for C8 at a concrete state: target module 7 armed, tiny-body
method, rewrite attempted and succeeds, flag left claimed. -/
theorem C8_jit_one_shot_witness :
    (Prof_JITCompilationStarted (fun _ _ => [0x06, 0x02, 0x2A]) true
      ⟨true, 0, 9, 7, true, false, ⟨1, 2, 3, 4, 5⟩⟩ 7 11).2 =
        .attempted true ∧
    ((Prof_JITCompilationStarted (fun _ _ => [0x06, 0x02, 0x2A]) true
      ⟨true, 0, 9, 7, true, false, ⟨1, 2, 3, 4, 5⟩⟩ 7 11).1).injected = true :=
  ⟨by decide,
    (C8_jit_one_shot (fun _ _ => [0x06, 0x02, 0x2A]) true
      ⟨true, 0, 9, 7, true, false, ⟨1, 2, 3, 4, 5⟩⟩ 7 11 true
      (by decide)).2.2.2.2⟩

/-- Claim C10: with the corelib module id still unrecorded
(`g_corelibModuleId == 0`) the JIT callback returns right after bumping its
event counter — before resolving function info and before any rewrite — and
consequently a rewrite can only ever be attempted after a corelib module has
been observed. -/
theorem C10_jit_needs_corelib (bodyOf : Nat → Nat → List Nat)
    (resolveOk : Bool) (st : ProfState) (fnModule fnToken : Nat) :
    (st.infoSet = true → st.corelibModuleId = 0 →
      Prof_JITCompilationStarted bodyOf resolveOk st fnModule fnToken =
        ({ st with jitCount := st.jitCount + 1 }, .noCorelib)) ∧
    (∀ b, (Prof_JITCompilationStarted bodyOf resolveOk st fnModule fnToken).2
        = .attempted b → st.corelibModuleId ≠ 0) := by
  constructor
  · intro hinfo hzero
    simp only [Prof_JITCompilationStarted, hinfo, hzero]
    rfl
  · intro b hatt
    simp only [Prof_JITCompilationStarted] at hatt
    split_ifs at hatt with h1 h2 h3 h4 h5 h6
    exact h2

/-- Witness for C10: any state with `corelibModuleId = 0` exits with
`noCorelib` having only bumped the JIT counter. -/
theorem C10_jit_needs_corelib_witness :
    Prof_JITCompilationStarted (fun _ _ => [0x06, 0x02, 0x2A]) true
      ⟨true, 4, 0, 7, true, false, ⟨1, 2, 3, 4, 5⟩⟩ 7 11 =
    (⟨true, 5, 0, 7, true, false, ⟨1, 2, 3, 4, 5⟩⟩, .noCorelib) :=
  (C10_jit_needs_corelib (fun _ _ => [0x06, 0x02, 0x2A]) true
    ⟨true, 4, 0, 7, true, false, ⟨1, 2, 3, 4, 5⟩⟩ 7 11).1 rfl rfl

set_option maxHeartbeats 1600000 in
/-- Claim C6: if any token-creation step of `PrepareTargetModule` fails, the
function returns FALSE with all five prepared token fields zeroed, the target
module id untouched (so still unset), the ready/injected flags untouched, and
both metadata handles released. -/
theorem C6_prepare_rollback (env : PrepEnv) (moduleId : Nat) (st0 : TokState)
    (h1 : env.importOk = true) (h2 : env.objectTR ≠ 0) (h3 : env.emitOk = true)
    (hfail : ¬ prepStepsOk env) :
    (PrepareTargetModule env moduleId st0).ok = false ∧
    (PrepareTargetModule env moduleId st0).st.loadFromMR = 0 ∧
    (PrepareTargetModule env moduleId st0).st.createInstMR = 0 ∧
    (PrepareTargetModule env moduleId st0).st.exceptionTR = 0 ∧
    (PrepareTargetModule env moduleId st0).st.pathString = 0 ∧
    (PrepareTargetModule env moduleId st0).st.typeString = 0 ∧
    (PrepareTargetModule env moduleId st0).st.targetModuleId
      = st0.targetModuleId ∧
    (PrepareTargetModule env moduleId st0).st.targetReady = st0.targetReady ∧
    (PrepareTargetModule env moduleId st0).st.injected = st0.injected ∧
    (PrepareTargetModule env moduleId st0).importReleased = true ∧
    (PrepareTargetModule env moduleId st0).emitReleased = true := by
  simp only [PrepareTargetModule, h1, h3]
  rw [if_neg (by simp), if_neg h2, if_neg (by simp)]
  split_ifs
  all_goals
    first
      | exact ⟨rfl, rfl, rfl, rfl, rfl, rfl, rfl, rfl, rfl, rfl, rfl⟩
      | exact absurd (by unfold prepStepsOk; tauto) hfail

/-- Environment for the C6 witness: `DefineMemberRef` for `LoadFrom` fails
(hr 0x80131130) after the Assembly TypeRef was created. -/
def envC6w : PrepEnv :=
  { importOk := true, objectTR := 0x01000001, runtimeScope := 0x23000001,
    emitOk := true, assemblyTRFound := 0, defAssemblyTR := ⟨0, 0x01000009⟩,
    defLoadFrom := ⟨0x80131130, 0x0A000001⟩, defCreateInst := ⟨0, 0x0A000002⟩,
    exceptionTRFound := 0, defExceptionTR := ⟨0, 0x0100000A⟩,
    defPathString := ⟨0, 0x70000001⟩, defTypeString := ⟨0, 0x70000002⟩,
    methods := [] }

/-- Witness for C6 at `envC6w`: everything is rolled back. -/
theorem C6_prepare_rollback_witness :
    envC6w.importOk = true ∧ envC6w.objectTR ≠ 0 ∧ envC6w.emitOk = true ∧
    (¬ prepStepsOk envC6w) ∧
    ((PrepareTargetModule envC6w 5 ⟨0, 0, 0, 0, 0, 0, false, false⟩).ok = false ∧
     (PrepareTargetModule envC6w 5 ⟨0, 0, 0, 0, 0, 0, false, false⟩).st.loadFromMR = 0 ∧
     (PrepareTargetModule envC6w 5 ⟨0, 0, 0, 0, 0, 0, false, false⟩).st.createInstMR = 0 ∧
     (PrepareTargetModule envC6w 5 ⟨0, 0, 0, 0, 0, 0, false, false⟩).st.exceptionTR = 0 ∧
     (PrepareTargetModule envC6w 5 ⟨0, 0, 0, 0, 0, 0, false, false⟩).st.pathString = 0 ∧
     (PrepareTargetModule envC6w 5 ⟨0, 0, 0, 0, 0, 0, false, false⟩).st.typeString = 0 ∧
     (PrepareTargetModule envC6w 5 ⟨0, 0, 0, 0, 0, 0, false, false⟩).st.targetModuleId = 0 ∧
     (PrepareTargetModule envC6w 5 ⟨0, 0, 0, 0, 0, 0, false, false⟩).st.targetReady = false ∧
     (PrepareTargetModule envC6w 5 ⟨0, 0, 0, 0, 0, 0, false, false⟩).st.injected = false ∧
     (PrepareTargetModule envC6w 5 ⟨0, 0, 0, 0, 0, 0, false, false⟩).importReleased = true ∧
     (PrepareTargetModule envC6w 5 ⟨0, 0, 0, 0, 0, 0, false, false⟩).emitReleased = true) :=
  ⟨rfl, by decide, rfl, by decide,
    C6_prepare_rollback envC6w 5 ⟨0, 0, 0, 0, 0, 0, false, false⟩ rfl
      (by decide) rfl (by decide)⟩

/-- Dropping the full left operand of an append. -/
theorem drop_all_left (A B : List Nat) (n : Nat) (hA : A.length = n) :
    (A ++ B).drop n = B := by
  subst hA
  exact List.drop_left A B

/-- Parsing facts forced by a tiny header. -/
theorem parse_tiny_fields (body : List Nat) (h : OrigHeader)
    (hp : parseOrigBody body = some h) (ht : h.isTiny = true) :
    h.maxStack = 8 ∧ h.localsSig = 0 := by
  match body with
  | [] => exact absurd hp (by simp [parseOrigBody])
  | b0 :: rest =>
    simp only [parseOrigBody] at hp
    split_ifs at hp
    · cases hp
      exact ⟨rfl, rfl⟩
    · cases hp
      simp at ht

set_option maxHeartbeats 800000 in
/-- Claim C3: for every accepted body the new fat header has
flags `(3 << 12) | Fat | MoreSects`, OR'd with InitLocals exactly when the
original was fat and carried it; maxStack `max(orig, 2)` (8 for a tiny
original); codeSize `26 + origCodeSize`; and the original localsSig (0 for a
tiny original).  The bounds assumed (16-bit maxStack, 32-bit localsSig and
codeSize) hold for every header read from bytes. -/
theorem C3_new_fat_header (tk : ILTokens) (body : List Nat) (h : OrigHeader)
    (hp : parseOrigBody body = some h)
    (hms : h.flags &&& CorILMethod_MoreSects = 0)
    (hstack : h.maxStack < 65536)
    (hloc : h.localsSig < 4294967296)
    (hsize : INJECT_SIZE + h.codeSize < 4294967296) :
    DoInjectIL tk body = some (buildNewBody tk h) ∧
    readLE16 (buildNewBody tk h) 0 =
      (((3 <<< 12) ||| CorILMethod_FatFormat ||| CorILMethod_MoreSects) |||
        (if h.isTiny = false ∧ h.flags &&& CorILMethod_InitLocals ≠ 0 then
          CorILMethod_InitLocals else 0)) ∧
    readLE16 (buildNewBody tk h) 2 = max h.maxStack 2 ∧
    readLE32 (buildNewBody tk h) 4 = INJECT_SIZE + h.codeSize ∧
    readLE32 (buildNewBody tk h) 8 = h.localsSig ∧
    (h.isTiny = true → h.maxStack = 8 ∧ h.localsSig = 0) := by
  have hmod : (INJECT_SIZE + h.codeSize) % 4294967296 = INJECT_SIZE + h.codeSize :=
    Nat.mod_eq_of_lt hsize
  refine ⟨?_, ?_, ?_, ?_, ?_, parse_tiny_fields body h hp⟩
  · unfold DoInjectIL
    rw [hp]
    exact if_neg (by omega)
  · simp only [buildNewBody, List.append_assoc]
    by_cases hi : h.isTiny = false ∧ h.flags &&& CorILMethod_InitLocals ≠ 0
    · rw [if_pos hi, if_pos hi, readLE16_le16_head _ _ (by decide)]
    · rw [if_neg hi, if_neg hi, readLE16_le16_head _ _ (by decide),
        Nat.or_zero]
  · simp only [buildNewBody, List.append_assoc]
    rw [readLE16_le16_second _ _ _ (by split <;> omega)]
    split <;> omega
  · simp only [buildNewBody, List.append_assoc]
    rw [readLE32_hdr4 _ _ _ _ (by omega)]
    exact hmod
  · simp only [buildNewBody, List.append_assoc]
    exact readLE32_hdr8 _ _ _ _ _ hloc

/-- Witness for C3 at the spec's scenario 2: original fat flags 0x0013,
maxStack 4, codeSize 10, localsSig 0x11000002; the rewritten header is
flags 0x301B, maxStack 4, codeSize 36, localsSig preserved. -/
theorem C3_new_fat_header_witness :
    parseOrigBody [0x13, 0, 4, 0, 10, 0, 0, 0, 2, 0, 0, 0x11,
        0, 0, 0, 0, 0, 0, 0, 0, 0, 0] =
      some ⟨false, 0x13, 4, 10, 0x11000002, [0, 0, 0, 0, 0, 0, 0, 0, 0, 0]⟩ ∧
    (0x13 : Nat) &&& CorILMethod_MoreSects = 0 ∧
    (4 : Nat) < 65536 ∧ (0x11000002 : Nat) < 4294967296 ∧
    INJECT_SIZE + 10 < 4294967296 ∧
    DoInjectIL ⟨1, 2, 3, 4, 5⟩ [0x13, 0, 4, 0, 10, 0, 0, 0, 2, 0, 0, 0x11,
        0, 0, 0, 0, 0, 0, 0, 0, 0, 0] =
      some (buildNewBody ⟨1, 2, 3, 4, 5⟩
        ⟨false, 0x13, 4, 10, 0x11000002, [0, 0, 0, 0, 0, 0, 0, 0, 0, 0]⟩) ∧
    readLE16 (buildNewBody ⟨1, 2, 3, 4, 5⟩
      ⟨false, 0x13, 4, 10, 0x11000002, [0, 0, 0, 0, 0, 0, 0, 0, 0, 0]⟩) 0
        = 0x301B ∧
    readLE16 (buildNewBody ⟨1, 2, 3, 4, 5⟩
      ⟨false, 0x13, 4, 10, 0x11000002, [0, 0, 0, 0, 0, 0, 0, 0, 0, 0]⟩) 2 = 4 ∧
    readLE32 (buildNewBody ⟨1, 2, 3, 4, 5⟩
      ⟨false, 0x13, 4, 10, 0x11000002, [0, 0, 0, 0, 0, 0, 0, 0, 0, 0]⟩) 4 = 36 ∧
    readLE32 (buildNewBody ⟨1, 2, 3, 4, 5⟩
      ⟨false, 0x13, 4, 10, 0x11000002, [0, 0, 0, 0, 0, 0, 0, 0, 0, 0]⟩) 8
        = 0x11000002 :=
  ⟨by decide, by decide, by decide, by decide, by decide,
    (C3_new_fat_header ⟨1, 2, 3, 4, 5⟩
      [0x13, 0, 4, 0, 10, 0, 0, 0, 2, 0, 0, 0x11, 0, 0, 0, 0, 0, 0, 0, 0, 0, 0]
      ⟨false, 0x13, 4, 10, 0x11000002, [0, 0, 0, 0, 0, 0, 0, 0, 0, 0]⟩
      (by decide) (by decide) (by decide) (by decide) (by decide)).1,
    by decide, by decide, by decide, by decide⟩

set_option maxHeartbeats 800000 in
/-- Claim C4: the exception-handling section of every rewritten body starts
at a 4-byte-aligned offset `12 + newCodeSize + (4 − (12 + newCodeSize) mod 4)
mod 4`, begins with `[0x41, 0x1C, 0x00, 0x00]`, and its single fat clause has
flags 0, tryOffset 0, tryLength 23, handlerOffset 23, handlerLength 3 and the
prepared exception token; try `[0, 23)` and handler `[23, 26)` are disjoint
and cover `[0, 26)`. -/
theorem C4_eh_section (tk : ILTokens) (body : List Nat) (h : OrigHeader)
    (hp : parseOrigBody body = some h)
    (hms : h.flags &&& CorILMethod_MoreSects = 0)
    (hlen : h.code.length = h.codeSize)
    (hsize : INJECT_SIZE + h.codeSize < 4294967296)
    (htr : tk.trException < 4294967296) :
    DoInjectIL tk body = some (buildNewBody tk h) ∧
    (12 + (INJECT_SIZE + h.codeSize) +
      (4 - (12 + (INJECT_SIZE + h.codeSize)) % 4) % 4) % 4 = 0 ∧
    (buildNewBody tk h).drop
        (12 + (INJECT_SIZE + h.codeSize) +
          (4 - (12 + (INJECT_SIZE + h.codeSize)) % 4) % 4) =
      ehSectionBytes tk.trException ∧
    (buildNewBody tk h).length =
      12 + (INJECT_SIZE + h.codeSize) +
        (4 - (12 + (INJECT_SIZE + h.codeSize)) % 4) % 4 + 28 ∧
    (ehSectionBytes tk.trException).take 4 = [0x41, 0x1C, 0x00, 0x00] ∧
    readLE32 (ehSectionBytes tk.trException) 4 = 0 ∧
    readLE32 (ehSectionBytes tk.trException) 8 = 0 ∧
    readLE32 (ehSectionBytes tk.trException) 12 = 23 ∧
    readLE32 (ehSectionBytes tk.trException) 16 = 23 ∧
    readLE32 (ehSectionBytes tk.trException) 20 = 3 ∧
    readLE32 (ehSectionBytes tk.trException) 24 = tk.trException ∧
    (∀ i : Nat,
      ((readLE32 (ehSectionBytes tk.trException) 8 ≤ i ∧
        i < readLE32 (ehSectionBytes tk.trException) 8 +
          readLE32 (ehSectionBytes tk.trException) 12) ∨
       (readLE32 (ehSectionBytes tk.trException) 16 ≤ i ∧
        i < readLE32 (ehSectionBytes tk.trException) 16 +
          readLE32 (ehSectionBytes tk.trException) 20)) ↔ i < INJECT_SIZE) ∧
    (∀ i : Nat, ¬
      ((readLE32 (ehSectionBytes tk.trException) 8 ≤ i ∧
        i < readLE32 (ehSectionBytes tk.trException) 8 +
          readLE32 (ehSectionBytes tk.trException) 12) ∧
       (readLE32 (ehSectionBytes tk.trException) 16 ≤ i ∧
        i < readLE32 (ehSectionBytes tk.trException) 16 +
          readLE32 (ehSectionBytes tk.trException) 20))) := by
  have hmod : (INJECT_SIZE + h.codeSize) % 4294967296 = INJECT_SIZE + h.codeSize :=
    Nat.mod_eq_of_lt hsize
  have hIS : INJECT_SIZE = 26 := rfl
  have hr8 : readLE32 (ehSectionBytes tk.trException) 8 = 0 := rfl
  have hr12 : readLE32 (ehSectionBytes tk.trException) 12 = 23 := rfl
  have hr16 : readLE32 (ehSectionBytes tk.trException) 16 = 23 := rfl
  have hr20 : readLE32 (ehSectionBytes tk.trException) 20 = 3 := rfl
  refine ⟨?_, by omega, ?_, ?_, rfl, rfl, hr8, hr12, hr16, hr20, ?_, ?_, ?_⟩
  · unfold DoInjectIL
    rw [hp]
    exact if_neg (by omega)
  · simp only [buildNewBody]
    refine drop_all_left _ _ _ ?_
    simp only [List.length_append, le16, le32, injectionIL, List.length_cons,
      List.length_replicate, hlen, hmod, List.length_nil]
    omega
  · simp only [buildNewBody, List.length_append, le16, le32, injectionIL,
      List.length_cons, List.length_replicate, hlen, hmod, List.length_nil]
    have hs : (ehSectionBytes tk.trException).length = 28 := rfl
    rw [hs]
    omega
  · show tk.trException % 256 + 256 * (tk.trException / 256 % 256) +
      65536 * (tk.trException / 65536 % 256) +
      16777216 * (tk.trException / 16777216 % 256) = tk.trException
    omega
  · intro i
    rw [hr8, hr12, hr16, hr20]
    show (0 ≤ i ∧ i < 0 + 23) ∨ (23 ≤ i ∧ i < 23 + 3) ↔ i < 26
    omega
  · intro i
    rw [hr8, hr12, hr16, hr20]
    show ¬ ((0 ≤ i ∧ i < 0 + 23) ∧ (23 ≤ i ∧ i < 23 + 3))
    omega

/-- Witness for C4 at a two-byte tiny body `[0x0A, 0x02, 0x2A]`: the section
starts at the aligned offset 40 and carries the expected clause. -/
theorem C4_eh_section_witness :
    parseOrigBody [0x0A, 0x02, 0x2A] = some ⟨true, 0, 8, 2, 0, [0x02, 0x2A]⟩ ∧
    ([0x02, 0x2A] : List Nat).length = 2 ∧
    INJECT_SIZE + 2 < 4294967296 ∧ (5 : Nat) < 4294967296 ∧
    (buildNewBody ⟨1, 2, 3, 4, 5⟩ ⟨true, 0, 8, 2, 0, [0x02, 0x2A]⟩).drop 40 =
      ehSectionBytes 5 ∧
    (40 : Nat) % 4 = 0 ∧
    (ehSectionBytes 5).take 4 = [0x41, 0x1C, 0x00, 0x00] :=
  ⟨by decide, by decide, by decide, by decide,
    (C4_eh_section ⟨1, 2, 3, 4, 5⟩ [0x0A, 0x02, 0x2A]
      ⟨true, 0, 8, 2, 0, [0x02, 0x2A]⟩ (by decide) (by decide) (by decide)
      (by decide) (by decide)).2.2.1,
    by decide, by decide⟩

end Uprooted
